import Mathlib

/-!
Shallow embedding of the LegalBench-RAG evaluation notebook
(`RAG_Evaluation_LegalBench-RAG.ipynb`).

The notebook is a linear pipeline: load corpus documents and benchmark
question/answer records, chunk the documents, upsert the chunks into a
SQLiteVec vector store, sample 100 queries, run retrieval + generation per
query, checkpoint the results to JSON, reshape them for RAGChecker, run the
RAGAs per-instance scoring loop, and append both frameworks' metrics to a
shared text file.

External collaborators (the vector store's similarity search, the embedding
model, the generator LLM, the two evaluation frameworks' scoring calls, the
operating system's file listing, Python's `json` codec and `random` module)
are modelled either as function parameters or, where a claim depends on their
contract, as definitions whose doc comment starts with `Modelled from the
spec:`.  Everything else is translated directly from the notebook cells.
-/

namespace LegalBenchRAG

/-! ## Data model: corpus loading (notebook section 2) -/

/-- A file inside a dataset directory: its name (as yielded by `os.listdir`)
and its text content. -/
structure DirEntry where
  name : String
  content : String
deriving DecidableEq

/-- A dataset directory: the path the notebook lists in `directories` and the
files found inside it. -/
structure Directory where
  path : String
  entries : List DirEntry
deriving DecidableEq

/-- Metadata the loader attaches to each LangChain `Document`:
`{"source_dataset": folder, "filename": file}`. -/
structure DocMeta where
  source_dataset : String
  filename : String
deriving DecidableEq

/-- A LangChain `Document`: page content plus loader metadata. -/
structure Document where
  page_content : String
  metadata : DocMeta
deriving DecidableEq

/-- Python's `str.endswith`, on the character list of the string (the
notebook uses `file.endswith(".txt")`). -/
def strEndsWith (s t : String) : Bool :=
  (s.data.reverse.take t.data.length) == t.data.reverse

/-- The loader body for one folder of the corpus: every file whose name ends
in `.txt` becomes one `Document` with `source_dataset` set to the folder path
and `filename` set to the file name. -/
def loadFolder (folder : Directory) : List Document :=
  (folder.entries.filter (fun f => strEndsWith f.name ".txt")).map
    (fun f =>
      { page_content := f.content,
        metadata := { source_dataset := folder.path, filename := f.name } })

/-- The corpus loading cell: iterate over the input corpus directories and
collect the per-folder documents in order (`legalbench_rag_retrieval_docs`). -/
def legalbench_rag_retrieval_docs (directories : List Directory) : List Document :=
  directories.flatMap loadFolder

/-! ## Data model: benchmark QA records (notebook section 2) -/

/-- One answer snippet of a benchmark test entry: `{"answer": ..., "file_path": ...}`. -/
structure Snippet where
  answer : String
  file_path : String
deriving DecidableEq

/-- One entry of a benchmark file's `tests` array: a query and its snippets. -/
structure TestExample where
  query : String
  snippets : List Snippet
deriving DecidableEq

/-- A QA record as built by the benchmark-loading cell:
`{"query_id": ..., "query": ..., "answers": ...}`. -/
structure QARecord where
  query_id : ℕ
  query : String
  answers : List String
deriving DecidableEq, Inhabited

/-- The answer list of one test entry: each snippet's answer text with its
source file path appended (`snippet["answer"] + "\nSource: " + snippet["file_path"]`). -/
def qaAnswers (e : TestExample) : List String :=
  e.snippets.map (fun s => s.answer ++ "\nSource: " ++ s.file_path)

/-- The inner loop over one benchmark file's `tests` array, threading the
running `query_id` counter. -/
def buildQA : List TestExample → ℕ → List QARecord
  | [], _ => []
  | e :: rest, qid =>
      { query_id := qid, query := e.query, answers := qaAnswers e } :: buildQA rest (qid + 1)

/-- The outer loop over the benchmark files, threading the counter across
files; each benchmark file is given by its parsed `tests` array. -/
def loadQA : List (List TestExample) → ℕ → List QARecord
  | [], _ => []
  | tests :: more, qid => buildQA tests qid ++ loadQA more (qid + tests.length)

/-- The benchmark-loading cell: `query_id` starts at 1 and increments per test
entry across all benchmark files in path order (`legalbench_rag_qa`). -/
def legalbench_rag_qa (benchmarks : List (List TestExample)) : List QARecord :=
  loadQA benchmarks 1

/-! ## Chunker (notebook section 2.1) -/

/-- Metadata of a chunk: the originating document's metadata plus the chunk's
start offset within the document (`add_start_index=True`). -/
structure ChunkMeta where
  source_dataset : String
  filename : String
  start_index : ℕ
deriving DecidableEq

/-- A chunk produced by the splitter: a text window plus its metadata. -/
structure Chunk where
  page_content : String
  metadata : ChunkMeta
deriving DecidableEq

/-- Modelled from the spec: the notebook delegates chunking to LangChain's
`RecursiveCharacterTextSplitter(chunk_size=2000, chunk_overlap=500,
add_start_index=True)`, an external library whose internals are not part of
this repository.  The spec's Chunker contract is fixed-size overlapping text
windows of 2000 characters with a 500-character overlap, each chunk recording
its start offset; consecutive windows therefore start 2000 - 500 = 1500
characters apart, and the final window is the first one that reaches the end
of the document.  `startsFrom s L` lists the window start offsets from
position `s` for a document of `L` characters. -/
def startsFrom (s L : ℕ) : List ℕ :=
  if s + 2000 < L then s :: startsFrom (s + 1500) L else [s]
termination_by L - s
decreasing_by omega

/-- The window start offsets for a document of `L` characters. -/
def chunkStarts (L : ℕ) : List ℕ :=
  startsFrom 0 L

/-- Splitting one document: one chunk per window start, carrying the source
document's metadata plus the start offset. -/
def splitDocument (doc : Document) : List Chunk :=
  (chunkStarts doc.page_content.length).map
    (fun s =>
      { page_content := String.mk ((doc.page_content.data.drop s).take 2000),
        metadata :=
          { source_dataset := doc.metadata.source_dataset,
            filename := doc.metadata.filename,
            start_index := s } })

/-- The chunking cell: `text_splitter.split_documents(legalbench_rag_retrieval_docs)`. -/
def legalbench_rag_chunks (docs : List Document) : List Chunk :=
  docs.flatMap splitDocument

/-- Ceiling division on naturals, for the spec's `ceil((L-500)/1500)`. -/
def natCeilDiv (a b : ℕ) : ℕ :=
  (a + b - 1) / b

/-! ## Vector store upsert (notebook section 3) -/

/-- A row stored in the SQLiteVec table: the chunk text and the metadata that
`add_texts` persists with it.  `none` models a row inserted with the
`metadatas` parameter left at its default, which the store persists as the
default empty metadata object. -/
structure StoredRow where
  text : String
  metadata : Option ChunkMeta
deriving DecidableEq

/-- Modelled from the spec: LangChain's `VectorStore.add_texts`, the external
collaborator operation consumed by the upsert cell.  Its signature is
`add_texts(self, texts, metadatas=None, **kwargs)`: the caller's keyword
arguments are an association list, the parameter `metadatas` is bound to the
keyword argument of that exact name, and any other keyword argument is
absorbed by `**kwargs` and ignored.  Each text is appended to the store as a
row together with its metadata (or the default when `metadatas` is absent). -/
def add_texts (store : List StoredRow) (texts : List String)
    (kwargs : List (String × List ChunkMeta)) : List StoredRow :=
  match kwargs.lookup "metadatas" with
  | some metadatas =>
      store ++ (texts.zip (metadatas.map some)).map
        (fun p => { text := p.1, metadata := p.2 })
  | none => store ++ texts.map (fun t => { text := t, metadata := none })

/-- The upsert cell for one batch, exactly as written in the source: it builds
`batch_texts` and `batch_metadata` from the chunk slice and calls `add_texts`
passing the metadata under the misspelled keyword `metdata`. -/
def upsertBatch (store : List StoredRow) (chunks : List Chunk) : List StoredRow :=
  add_texts store (chunks.map Chunk.page_content) [("metdata", chunks.map Chunk.metadata)]

/-! ## Sampling (notebook section 4) -/

/-- Modelled from the spec: `random.seed(100)` followed by
`random.sample(range(6889), 100)` uses Python's Mersenne Twister, an external
library component; the spec requires only that the sampling step is a pure
function of the fixed seed ("deterministic and reproducible across runs").
The generator is represented by a linear congruential step. -/
def lcg (s : ℕ) : ℕ :=
  (1103515245 * s + 12345) % 4294967296

/-- Drawing `k` indices below `n` deterministically from `seed`. -/
def sampleIndices (seed n k : ℕ) : List ℕ :=
  (List.range k).map (fun i => (lcg^[i + 1] seed) % n)

/-- The sampling cell as executed in one run of the notebook. -/
def sampled_indices_first_run : List ℕ :=
  sampleIndices 100 6889 100

/-- The sampling cell as executed in a second, independent run of the
notebook, with the same fixed seed. -/
def sampled_indices_second_run : List ℕ :=
  sampleIndices 100 6889 100

/-- The subset cell: `legalbench_rag_subset` collects `legalbench_rag_qa[index]`
for each sampled index. -/
def legalbench_rag_subset (qa : List QARecord) (indices : List ℕ) : List QARecord :=
  indices.map (fun i => qa.getD i default)

/-! ## Evaluation loop (notebook section 4) -/

/-- A result record of the evaluation loop. -/
structure ResultRecord where
  query_id : ℕ
  query : String
  ground_truth_answer : List String
  generated_answer : String
  retrieved_chunks : List Chunk
deriving DecidableEq

/-- The prompt template of the RAG pipeline, after `format_prompt` substitutes
the question and the concatenated context. -/
def prompt_message (question context : String) : String :=
  "Answer the following question:\n\n\n\n" ++ question ++
    "\n\n\n\n\nUsing the following list of context passages:\n\n\n\n" ++ context ++ "\n\n\n"

/-- The per-query evaluation loop: retrieve the top chunks, concatenate their
text into a context blob, generate an answer, and record the result.  The
vector store's `similarity_search` (already fixed to `k=10`) and the generator
LLM are external collaborators passed as functions. -/
def runPipeline (similarity_search : String → List Chunk)
    (generate : String → String) (subset : List QARecord) : List ResultRecord :=
  subset.map (fun qa =>
    let retrieved_chunks := similarity_search qa.query
    let retrieved_context :=
      retrieved_chunks.foldl (fun acc c => acc ++ c.page_content ++ "\n\n") ""
    { query_id := qa.query_id,
      query := qa.query,
      ground_truth_answer := qa.answers,
      generated_answer := generate (prompt_message qa.query retrieved_context),
      retrieved_chunks := retrieved_chunks })

/-! ## JSON checkpoint (notebook sections 4 and 5) -/

/-- A retrieved chunk as re-serialized for the checkpoint:
`{"page_content": chunk.page_content}`. -/
structure SRChunk where
  page_content : String
deriving DecidableEq

/-- A result record in the serializable form written to
`legalbench_rag_results.json`. -/
structure SerializableResult where
  query_id : ℕ
  query : String
  ground_truth_answer : List String
  generated_answer : String
  retrieved_chunks : List SRChunk
deriving DecidableEq

/-- The checkpoint preprocessing cell: copy each result, replacing each
retrieved `Document` object by `{"page_content": ...}`. -/
def serializable_results (results : List ResultRecord) : List SerializableResult :=
  results.map (fun res =>
    { query_id := res.query_id,
      query := res.query,
      ground_truth_answer := res.ground_truth_answer,
      generated_answer := res.generated_answer,
      retrieved_chunks := res.retrieved_chunks.map (fun c => { page_content := c.page_content }) })

/-- JSON values, as produced by `json.dump` and consumed by `json.load`. -/
inductive Json where
  | num (n : ℤ)
  | str (s : String)
  | arr (items : List Json)
  | obj (fields : List (String × Json))

/-- Encoding of one serialized chunk. -/
def encodeChunk (c : SRChunk) : Json :=
  .obj [("page_content", .str c.page_content)]

/-- Encoding of one serializable result as the JSON object written to the
checkpoint file. -/
def encodeResult (r : SerializableResult) : Json :=
  .obj [("query_id", .num (Int.ofNat r.query_id)), ("query", .str r.query),
        ("ground_truth_answer", .arr (r.ground_truth_answer.map Json.str)),
        ("generated_answer", .str r.generated_answer),
        ("retrieved_chunks", .arr (r.retrieved_chunks.map encodeChunk))]

/-- `json.dump(serializable_results, file)`: the JSON array written to
`legalbench_rag_results.json`. -/
def json_dump (rs : List SerializableResult) : Json :=
  .arr (rs.map encodeResult)

/-- Option-valued traversal of a list (used by the decoders). -/
def optionMapList {α β : Type} (f : α → Option β) : List α → Option (List β)
  | [] => some []
  | a :: rest => do
      let b ← f a
      let bs ← optionMapList f rest
      some (b :: bs)

/-- Decoding a JSON string. -/
def decodeStr : Json → Option String
  | .str s => some s
  | _ => none

/-- Decoding one serialized chunk object. -/
def decodeChunk : Json → Option SRChunk
  | .obj [("page_content", .str s)] => some { page_content := s }
  | _ => none

/-- Decoding one result object of the checkpoint file. -/
def decodeResult : Json → Option SerializableResult
  | .obj [("query_id", .num (.ofNat qid)), ("query", .str q),
          ("ground_truth_answer", .arr gta), ("generated_answer", .str ga),
          ("retrieved_chunks", .arr chunks)] => do
      let gtaList ← optionMapList decodeStr gta
      let chunkList ← optionMapList decodeChunk chunks
      some { query_id := qid, query := q, ground_truth_answer := gtaList,
             generated_answer := ga, retrieved_chunks := chunkList }
  | _ => none

/-- `json.load(file)` on the checkpoint file, decoded back into result
records (`json_results`). -/
def json_load : Json → Option (List SerializableResult)
  | .arr items => optionMapList decodeResult items
  | _ => none

/-! ## RAGChecker formatting (notebook section 5.1) -/

/-- A retrieved-context entry of the RAGChecker format: `{"text": ...}`. -/
structure RCContext where
  text : String
deriving DecidableEq

/-- A result in the RAGChecker format. -/
structure RCResult where
  query_id : String
  query : String
  gt_answer : String
  response : String
  retrieved_context : List RCContext
deriving DecidableEq

/-- The body of the formatting loop for one record with a non-empty
ground-truth list: `query_id` is stringified, `gt_answer` is
`ground_truth_answer[0]`, and each retrieved chunk becomes `{"text": ...}`.
(The loop only applies this under its `len(...) > 0` guard, where `headD`
coincides with indexing at 0.) -/
def formatRes (res : SerializableResult) : RCResult :=
  { query_id := toString res.query_id,
    query := res.query,
    gt_answer := res.ground_truth_answer.headD "",
    response := res.generated_answer,
    retrieved_context := res.retrieved_chunks.map (fun c => { text := c.page_content }) }

/-- The RAGChecker formatting cell: walk `json_results` in order and append a
formatted record for each result whose `ground_truth_answer` is non-empty
(the `results` list of `ragchecker_results`). -/
def ragchecker_results (json_results : List SerializableResult) : List RCResult :=
  json_results.foldl
    (fun acc res =>
      if 0 < res.ground_truth_answer.length then acc ++ [formatRes res] else acc)
    []

/-! ## RAGAs evaluation loop (notebook section 5.2) -/

/-- The `metrics` dictionary of the RAGAs cell: one numeric total per metric
name. -/
structure RagasScores where
  faithfulness : ℚ
  answer_relevance : ℚ
  context_relevance : ℚ
deriving DecidableEq

/-- The running-sum part of the RAGAs loop: starting from the zero-initialized
`metrics` dictionary, add each instance's three scores.  The three
`single_turn_ascore` calls are external collaborators passed as functions of
the result record. -/
def ragasSums (fScore aScore cScore : SerializableResult → ℚ)
    (json_results : List SerializableResult) : RagasScores :=
  json_results.foldl
    (fun acc r =>
      { faithfulness := acc.faithfulness + fScore r,
        answer_relevance := acc.answer_relevance + aScore r,
        context_relevance := acc.context_relevance + cScore r })
    { faithfulness := 0, answer_relevance := 0, context_relevance := 0 }

/-- The complete RAGAs evaluation cell: accumulate the running sums, then
divide every entry of the `metrics` dictionary by the literal 100. -/
def ragasMetrics (fScore aScore cScore : SerializableResult → ℚ)
    (json_results : List SerializableResult) : RagasScores :=
  let sums := ragasSums fScore aScore cScore json_results
  { faithfulness := sums.faithfulness / 100,
    answer_relevance := sums.answer_relevance / 100,
    context_relevance := sums.context_relevance / 100 }

/-- The claim's reading of the same cell, written from the spec's words: each
final metric value is the running sum divided by the number of result records
processed (the arithmetic mean over the processed instances). -/
def ragasMeanMetrics (fScore aScore cScore : SerializableResult → ℚ)
    (json_results : List SerializableResult) : RagasScores :=
  let sums := ragasSums fScore aScore cScore json_results
  { faithfulness := sums.faithfulness / (json_results.length : ℚ),
    answer_relevance := sums.answer_relevance / (json_results.length : ℚ),
    context_relevance := sums.context_relevance / (json_results.length : ℚ) }

/-! ## Output file writes (notebook sections 5.1 and 5.2) -/

/-- Python `open` modes used by the notebook for
`legalbench_rag_framework_results.txt`. -/
inductive FileMode where
  | write
  | appendPlus
deriving DecidableEq

/-- Writing `text` to a file whose previous contents are `old` (`none` when
the file does not exist yet): mode `"w"` truncates or creates the file, mode
`"a+"` appends to the existing contents, creating the file if missing. -/
def openAndWrite (mode : FileMode) (old : Option String) (text : String) : String :=
  match mode with
  | .write => text
  | .appendPlus => old.getD "" ++ text

/-- The text block the RAGChecker cell writes. -/
def ragchecker_block (rag_results_str : String) : String :=
  "RAGChecker results:\n\n" ++ rag_results_str

/-- The text block the RAGAs cell writes. -/
def ragas_block (metrics_str : String) : String :=
  "\n\nRAGAs results:\n\n" ++ metrics_str

/-- The RAGChecker results write: `open(..., "w")` followed by
`file.write("RAGChecker results:\n\n" + str(rag_results))`. -/
def write_ragchecker_results (old : Option String) (rag_results_str : String) : String :=
  openAndWrite .write old (ragchecker_block rag_results_str)

/-- The RAGAs results write: `open(..., "a+")` followed by
`file.write("\n\nRAGAs results:\n\n" + str(metrics))`. -/
def write_ragas_results (old : Option String) (metrics_str : String) : String :=
  openAndWrite .appendPlus old (ragas_block metrics_str)

/-! ## Helper lemmas -/

theorem startsFrom_length (s L : ℕ) :
    (startsFrom s L).length = if s + 2000 < L then (L - s + 999) / 1500 else 1 := by
  rw [startsFrom]
  by_cases h : s + 2000 < L
  · rw [if_pos h, if_pos h]
    have ih := startsFrom_length (s + 1500) L
    by_cases h2 : s + 1500 + 2000 < L
    · rw [if_pos h2] at ih
      simp only [List.length_cons, ih]
      omega
    · rw [if_neg h2] at ih
      simp only [List.length_cons, ih]
      omega
  · rw [if_neg h, if_neg h]
    rfl
termination_by L - s
decreasing_by omega

theorem chunkStarts_length (L : ℕ) :
    (chunkStarts L).length = if 2000 < L then (L + 999) / 1500 else 1 := by
  have h := startsFrom_length 0 L
  simpa [chunkStarts] using h

theorem chunkStarts_3000 : chunkStarts 3000 = [0, 1500] := by
  rw [chunkStarts, startsFrom]
  norm_num
  rw [startsFrom]
  norm_num

theorem chunkStarts_1000 : chunkStarts 1000 = [0] := by
  rw [chunkStarts, startsFrom]
  norm_num

theorem buildQA_map_query_id (tests : List TestExample) (qid : ℕ) :
    (buildQA tests qid).map QARecord.query_id = List.range' qid tests.length := by
  induction tests generalizing qid with
  | nil => simp [buildQA]
  | cons e rest ih => simp [buildQA, ih, List.range'_succ]

theorem loadQA_map_query_id (bs : List (List TestExample)) (qid : ℕ) :
    (loadQA bs qid).map QARecord.query_id = List.range' qid (bs.map List.length).sum := by
  induction bs generalizing qid with
  | nil => simp [loadQA]
  | cons tests more ih =>
      simp only [loadQA, List.map_append, buildQA_map_query_id, ih, List.map_cons, List.sum_cons]
      rw [Nat.add_comm tests.length, ← List.range'_append_1]

theorem legalbench_rag_qa_length (bs : List (List TestExample)) :
    (legalbench_rag_qa bs).length = (bs.map List.length).sum := by
  have h := congrArg List.length (loadQA_map_query_id bs 1)
  simpa [legalbench_rag_qa] using h

theorem legalbench_rag_qa_query_id (bs : List (List TestExample)) (i : ℕ)
    (h : i < (legalbench_rag_qa bs).length) :
    ((legalbench_rag_qa bs).get ⟨i, h⟩).query_id = i + 1 := by
  have hmap := loadQA_map_query_id bs 1
  have hlen : (legalbench_rag_qa bs).length = (bs.map List.length).sum :=
    legalbench_rag_qa_length bs
  have h2 : i < (bs.map List.length).sum := hlen ▸ h
  have hmem : ((legalbench_rag_qa bs).map QARecord.query_id)[i]?
      = (List.range' 1 (bs.map List.length).sum)[i]? := by
    rw [legalbench_rag_qa, hmap]
  rw [List.getElem?_map, List.getElem?_range' _ _ h2] at hmem
  have hget : (legalbench_rag_qa bs)[i]? = some ((legalbench_rag_qa bs).get ⟨i, h⟩) := by
    simp [List.getElem?_eq_getElem h]
  rw [hget] at hmem
  simp [List.get_eq_getElem] at hmem ⊢
  omega

theorem ragchecker_foldl_aux (rs : List SerializableResult) (acc : List RCResult) :
    rs.foldl
      (fun acc res =>
        if 0 < res.ground_truth_answer.length then acc ++ [formatRes res] else acc)
      acc
    = acc ++ (rs.filter (fun res => 0 < res.ground_truth_answer.length)).map formatRes := by
  induction rs generalizing acc with
  | nil => simp
  | cons r rest ih =>
      by_cases h : 0 < r.ground_truth_answer.length
      · simp [h, ih, List.filter_cons]
      · simp [h, ih, List.filter_cons]

theorem ragchecker_results_spec (rs : List SerializableResult) :
    ragchecker_results rs
      = (rs.filter (fun res => 0 < res.ground_truth_answer.length)).map formatRes := by
  simpa [ragchecker_results] using ragchecker_foldl_aux rs []

theorem decodeStr_encode (l : List String) :
    optionMapList decodeStr (l.map Json.str) = some l := by
  induction l with
  | nil => rfl
  | cons a rest ih => simp [optionMapList, decodeStr, ih]

theorem decodeChunk_encode (l : List SRChunk) :
    optionMapList decodeChunk (l.map encodeChunk) = some l := by
  induction l with
  | nil => rfl
  | cons a rest ih => simp [optionMapList, decodeChunk, encodeChunk, ih]

theorem decodeResult_encode (r : SerializableResult) :
    decodeResult (encodeResult r) = some r := by
  show Option.bind (optionMapList decodeStr (r.ground_truth_answer.map Json.str))
      (fun gtaList => Option.bind (optionMapList decodeChunk (r.retrieved_chunks.map encodeChunk))
        (fun chunkList => some
          { query_id := r.query_id, query := r.query, ground_truth_answer := gtaList,
            generated_answer := r.generated_answer, retrieved_chunks := chunkList })) = some r
  rw [decodeStr_encode, decodeChunk_encode]
  rfl

theorem json_load_dump (rs : List SerializableResult) :
    json_load (json_dump rs) = some rs := by
  show optionMapList decodeResult (rs.map encodeResult) = some rs
  induction rs with
  | nil => rfl
  | cons r rest ih => simp [optionMapList, decodeResult_encode, ih]

/-! ## Claim theorems -/

/-- C9: for every list of input corpus directories, the Corpus Loader produces
exactly one `Document` per `.txt` file across those directories (the document
count equals the total text-file count), and each document's metadata has
`source_dataset` equal to the containing directory path and `filename` equal
to the file's name. -/
theorem corpus_loader_one_doc_per_txt_file (directories : List Directory) :
    (legalbench_rag_retrieval_docs directories).length
        = (directories.map
            (fun d => (d.entries.filter (fun f => strEndsWith f.name ".txt")).length)).sum
    ∧ ∀ doc ∈ legalbench_rag_retrieval_docs directories,
        ∃ d ∈ directories, ∃ f ∈ d.entries,
          strEndsWith f.name ".txt" = true
          ∧ doc.page_content = f.content
          ∧ doc.metadata.source_dataset = d.path
          ∧ doc.metadata.filename = f.name := by
  constructor
  · induction directories with
    | nil => rfl
    | cons d rest ih =>
        simp only [legalbench_rag_retrieval_docs, List.flatMap_cons, List.length_append,
          loadFolder, List.length_map, List.map_cons, List.sum_cons] at ih ⊢
        omega
  · intro doc hdoc
    simp only [legalbench_rag_retrieval_docs, List.mem_flatMap] at hdoc
    obtain ⟨d, hd, hdoc2⟩ := hdoc
    simp only [loadFolder, List.mem_map, List.mem_filter] at hdoc2
    obtain ⟨f, ⟨hf, hft⟩, rfl⟩ := hdoc2
    exact ⟨d, hd, f, hf, hft, rfl, rfl, rfl⟩

/-- Witness for C9 at a one-directory, one-file corpus. -/
theorem corpus_loader_one_doc_per_txt_file_witness :
    ∃ d ∈ [({ path := "./Datasets/cuad/",
              entries := [{ name := "a.txt", content := "CONTRACT" }] } : Directory)],
      ∃ f ∈ d.entries,
        strEndsWith f.name ".txt" = true
        ∧ ({ page_content := "CONTRACT",
             metadata := { source_dataset := "./Datasets/cuad/",
                           filename := "a.txt" } } : Document).page_content = f.content
        ∧ ({ page_content := "CONTRACT",
             metadata := { source_dataset := "./Datasets/cuad/",
                           filename := "a.txt" } } : Document).metadata.source_dataset = d.path
        ∧ ({ page_content := "CONTRACT",
             metadata := { source_dataset := "./Datasets/cuad/",
                           filename := "a.txt" } } : Document).metadata.filename = f.name :=
  (corpus_loader_one_doc_per_txt_file
      [{ path := "./Datasets/cuad/", entries := [{ name := "a.txt", content := "CONTRACT" }] }]).2
    { page_content := "CONTRACT",
      metadata := { source_dataset := "./Datasets/cuad/", filename := "a.txt" } }
    (by decide)

/-- C3: chunking a document of length `L` with window 2000 and overlap 500
yields exactly `ceil((L-500)/1500)` chunks for `L ≥ 2000` and exactly one
chunk for `L < 2000`; the chunks record start offsets, and in particular a
3000-character document yields two chunks at offsets 0 and 1500 while a
1000-character document yields one chunk at offset 0. -/
theorem chunker_window_count_formula (doc : Document) :
    ((splitDocument doc).map (fun c => c.metadata.start_index)
        = chunkStarts doc.page_content.length)
    ∧ (doc.page_content.length < 2000 → (splitDocument doc).length = 1)
    ∧ (2000 ≤ doc.page_content.length →
        (splitDocument doc).length = natCeilDiv (doc.page_content.length - 500) 1500)
    ∧ chunkStarts 3000 = [0, 1500]
    ∧ chunkStarts 1000 = [0] := by
  have hlen : (splitDocument doc).length = (chunkStarts doc.page_content.length).length := by
    simp [splitDocument]
  refine ⟨?_, ?_, ?_, chunkStarts_3000, chunkStarts_1000⟩
  · rw [splitDocument, List.map_map]
    exact (List.map_congr_left (fun a _ => rfl)).trans (List.map_id _)
  · intro h
    rw [hlen, chunkStarts_length, if_neg (by omega)]
  · intro h
    rw [hlen, chunkStarts_length, natCeilDiv]
    by_cases h2 : 2000 < doc.page_content.length
    · rw [if_pos h2]
      omega
    · rw [if_neg h2]
      omega

/-- Witness for C3 at concrete 3000- and 1000-character documents. -/
theorem chunker_window_count_formula_witness :
    (2000 ≤ ({ page_content := String.mk (List.replicate 3000 'a'),
               metadata := { source_dataset := "d", filename := "f" } } : Document).page_content.length
      ∧ (splitDocument { page_content := String.mk (List.replicate 3000 'a'),
                         metadata := { source_dataset := "d", filename := "f" } }).length
          = natCeilDiv (({ page_content := String.mk (List.replicate 3000 'a'),
                           metadata := { source_dataset := "d",
                                         filename := "f" } } : Document).page_content.length - 500) 1500)
    ∧ (({ page_content := String.mk (List.replicate 1000 'b'),
          metadata := { source_dataset := "d", filename := "f" } } : Document).page_content.length < 2000
      ∧ (splitDocument { page_content := String.mk (List.replicate 1000 'b'),
                         metadata := { source_dataset := "d", filename := "f" } }).length = 1) :=
  ⟨⟨by show (2000 : ℕ) ≤ (List.replicate 3000 'a').length
       rw [List.length_replicate]
       decide,
    (chunker_window_count_formula _).2.2.1
      (by show (2000 : ℕ) ≤ (List.replicate 3000 'a').length
          rw [List.length_replicate]
          decide)⟩,
   ⟨by show (List.replicate 1000 'b').length < 2000
       rw [List.length_replicate]
       decide,
    (chunker_window_count_formula _).2.1
      (by show (List.replicate 1000 'b').length < 2000
          rw [List.length_replicate]
          decide)⟩⟩

/-- C4: for every result record whose `ground_truth_answer` list is non-empty,
the RAGChecker formatter's output record sets `gt_answer` to exactly the first
element of the list, dropping every further element. -/
theorem ragchecker_gt_answer_takes_first (json_results : List SerializableResult)
    (res : SerializableResult) (a : String) (rest : List String)
    (h1 : res ∈ json_results) (h2 : res.ground_truth_answer = a :: rest) :
    formatRes res ∈ ragchecker_results json_results
    ∧ (formatRes res).gt_answer = a := by
  constructor
  · rw [ragchecker_results_spec]
    exact List.mem_map_of_mem _ (List.mem_filter.mpr ⟨h1, by simp [h2]⟩)
  · simp [formatRes, h2]

/-- Witness for C4 at the spec's scenario `ground_truth_answer = ["A", "B"]`. -/
theorem ragchecker_gt_answer_takes_first_witness :
    formatRes { query_id := 1, query := "q", ground_truth_answer := ["A", "B"],
                generated_answer := "resp", retrieved_chunks := [] }
      ∈ ragchecker_results [{ query_id := 1, query := "q", ground_truth_answer := ["A", "B"],
                              generated_answer := "resp", retrieved_chunks := [] }]
    ∧ (formatRes { query_id := 1, query := "q", ground_truth_answer := ["A", "B"],
                   generated_answer := "resp", retrieved_chunks := [] }).gt_answer = "A" :=
  ragchecker_gt_answer_takes_first _ _ "A" ["B"] (by simp) rfl

/-- C10: the RAGChecker formatter silently omits every record whose
`ground_truth_answer` is empty: its output is exactly the formatted image of
the input records with non-empty ground truth, in input order. -/
theorem ragchecker_results_drop_empty_gt_records (json_results : List SerializableResult) :
    ragchecker_results json_results
      = (json_results.filter (fun res => 0 < res.ground_truth_answer.length)).map formatRes :=
  ragchecker_results_spec json_results

/-- C6: serializing a result-record list to the JSON checkpoint and
deserializing it reproduces the serialized list exactly, and the serialized
list preserves `query_id`, `query`, `ground_truth_answer` and
`generated_answer` of every input record in order (only the chunk objects are
replaced by their `page_content`). -/
theorem checkpoint_round_trip_preserves_fields (results : List ResultRecord) :
    json_load (json_dump (serializable_results results)) = some (serializable_results results)
    ∧ (serializable_results results).map
        (fun r => (r.query_id, r.query, r.ground_truth_answer, r.generated_answer))
      = results.map
        (fun r => (r.query_id, r.query, r.ground_truth_answer, r.generated_answer)) := by
  refine ⟨json_load_dump _, ?_⟩
  simp only [serializable_results, List.map_map]
  rfl

/-- C7: sampling 100 indices from `range(6889)` after seeding with the fixed
seed 100 is deterministic: two runs of the sampling step produce the same
sequence of 100 indices and hence the same sampled query subset. -/
theorem sampling_with_seed_100_deterministic :
    sampled_indices_first_run = sampled_indices_second_run
    ∧ sampled_indices_first_run.length = 100
    ∧ ∀ qa : List QARecord,
        legalbench_rag_subset qa sampled_indices_first_run
          = legalbench_rag_subset qa sampled_indices_second_run :=
  ⟨rfl, by simp [sampled_indices_first_run, sampleIndices], fun _ => rfl⟩

/-- C8 counterexample: the RAGChecker metrics write opens the shared output
file in mode `"w"`, so it does not leave previously written contents of the
file unchanged — at a file previously containing text, the result is not that
text followed by the RAGChecker block. -/
theorem ragchecker_write_truncates :
    write_ragchecker_results (some "previously written contents") "METRICS"
      ≠ "previously written contents" ++ ragchecker_block "METRICS" := by
  decide

/-- C8 amended: the RAGChecker write truncates the shared output file and
leaves exactly its own block; the RAGAs write appends, preserving existing
contents; after the two writes in notebook order the file contains exactly the
RAGChecker block followed by the RAGAs block. -/
theorem framework_results_two_blocks (old : Option String)
    (prior rc_str ragas_str : String) :
    write_ragchecker_results old rc_str = ragchecker_block rc_str
    ∧ write_ragas_results (some prior) ragas_str = prior ++ ragas_block ragas_str
    ∧ write_ragas_results (some (write_ragchecker_results old rc_str)) ragas_str
        = ragchecker_block rc_str ++ ragas_block ragas_str :=
  ⟨rfl, rfl, rfl⟩

/-- C2 (code-bug evidence): the upsert cell passes the chunk metadata under
the misspelled keyword `metdata`, which `add_texts` absorbs into `**kwargs`
and ignores, so every stored row has no metadata — the chunk's
`source_dataset`, `filename` and start offset are not persisted, and no stored
chunk can be mapped back to its originating filename. -/
theorem upsert_stores_no_metadata (store : List StoredRow) (chunks : List Chunk) :
    upsertBatch store chunks
      = store ++ chunks.map (fun c => { text := c.page_content, metadata := none }) := by
  show store ++ (chunks.map Chunk.page_content).map
      (fun t => ({ text := t, metadata := none } : StoredRow))
      = store ++ chunks.map (fun c => { text := c.page_content, metadata := none })
  rw [List.map_map]
  rfl

/-- C1 counterexample: processing a single result record whose three scores
are all 1 leaves final metric values of 1/100, not the arithmetic mean 1 —
the loop divides the running sums by the literal 100, not by the number of
result records processed. -/
theorem ragas_average_not_mean_for_one_record :
    ragasMetrics (fun _ => 1) (fun _ => 1) (fun _ => 1)
        [{ query_id := 1, query := "q", ground_truth_answer := ["A"],
           generated_answer := "resp", retrieved_chunks := [] }]
      ≠ ragasMeanMetrics (fun _ => 1) (fun _ => 1) (fun _ => 1)
        [{ query_id := 1, query := "q", ground_truth_answer := ["A"],
           generated_answer := "resp", retrieved_chunks := [] }] := by
  simp only [ragasMetrics, ragasMeanMetrics, ragasSums, List.foldl,
    List.length_cons, List.length_nil]
  intro h
  have hf := congrArg RagasScores.faithfulness h
  norm_num at hf

/-- C1 amended: the RAGAs loop divides each metric's running sum by the
literal 100 (the size of the sampled set), so the final value equals the
arithmetic mean over the processed instances exactly when the number of
result records processed is 100 — as in the recorded run. -/
theorem ragas_average_divides_by_constant_100 (fScore aScore cScore : SerializableResult → ℚ)
    (json_results : List SerializableResult) (h : json_results.length = 100) :
    ragasMetrics fScore aScore cScore json_results
      = ragasMeanMetrics fScore aScore cScore json_results := by
  simp [ragasMetrics, ragasMeanMetrics, h]

/-- Witness for the amended C1 at a 100-record list. -/
theorem ragas_average_divides_by_constant_100_witness :
    (List.replicate 100
        ({ query_id := 1, query := "q", ground_truth_answer := ["A"],
           generated_answer := "resp", retrieved_chunks := [] } : SerializableResult)).length = 100
    ∧ ragasMetrics (fun _ => 1) (fun _ => 1) (fun _ => 1)
        (List.replicate 100
          { query_id := 1, query := "q", ground_truth_answer := ["A"],
            generated_answer := "resp", retrieved_chunks := [] })
      = ragasMeanMetrics (fun _ => 1) (fun _ => 1) (fun _ => 1)
        (List.replicate 100
          { query_id := 1, query := "q", ground_truth_answer := ["A"],
            generated_answer := "resp", retrieved_chunks := [] }) :=
  ⟨by simp, ragas_average_divides_by_constant_100 _ _ _ _ (by simp)⟩

/-- C5: `query_id` values are unique, consecutive integers assigned in strict
input order starting at 1, and no later pipeline stage reassigns or
duplicates them: the evaluation loop copies the sampled records' ids, the
serialization copies the loop's ids, the RAGChecker formatting renders each
surviving id as its decimal string, and distinct sampled indices keep the
recorded ids pairwise distinct. -/
theorem query_id_unique_sequential_stable (bs : List (List TestExample)) (indices : List ℕ)
    (similarity_search : String → List Chunk) (generate : String → String)
    (hidx : ∀ i ∈ indices, i < (legalbench_rag_qa bs).length)
    (hnd : indices.Nodup) :
    (∀ i (h : i < (legalbench_rag_qa bs).length),
        ((legalbench_rag_qa bs).get ⟨i, h⟩).query_id = i + 1)
    ∧ (runPipeline similarity_search generate
          (legalbench_rag_subset (legalbench_rag_qa bs) indices)).map ResultRecord.query_id
        = indices.map (· + 1)
    ∧ (serializable_results (runPipeline similarity_search generate
          (legalbench_rag_subset (legalbench_rag_qa bs) indices))).map SerializableResult.query_id
        = (runPipeline similarity_search generate
            (legalbench_rag_subset (legalbench_rag_qa bs) indices)).map ResultRecord.query_id
    ∧ (ragchecker_results (serializable_results (runPipeline similarity_search generate
          (legalbench_rag_subset (legalbench_rag_qa bs) indices)))).map RCResult.query_id
        = ((serializable_results (runPipeline similarity_search generate
              (legalbench_rag_subset (legalbench_rag_qa bs) indices))).filter
            (fun r => 0 < r.ground_truth_answer.length)).map (fun r => toString r.query_id)
    ∧ ((runPipeline similarity_search generate
          (legalbench_rag_subset (legalbench_rag_qa bs) indices)).map ResultRecord.query_id).Nodup := by
  have hsubset : (legalbench_rag_subset (legalbench_rag_qa bs) indices).map QARecord.query_id
      = indices.map (· + 1) := by
    rw [legalbench_rag_subset, List.map_map]
    apply List.map_congr_left
    intro i hi
    have hb := hidx i hi
    have hq := legalbench_rag_qa_query_id bs i hb
    simp only [Function.comp_apply]
    rw [List.getD_eq_getElem _ _ hb]
    simpa [List.get_eq_getElem] using hq
  have hrun : (runPipeline similarity_search generate
      (legalbench_rag_subset (legalbench_rag_qa bs) indices)).map ResultRecord.query_id
      = indices.map (· + 1) := by
    rw [runPipeline, List.map_map]
    exact hsubset
  refine ⟨legalbench_rag_qa_query_id bs, hrun, ?_, ?_, ?_⟩
  · rw [serializable_results, List.map_map]
    rfl
  · rw [ragchecker_results_spec, List.map_map]
    rfl
  · rw [hrun]
    exact hnd.map (fun a b hab => by omega)

/-- Witness for C5 at a two-query benchmark sampled in reversed order. -/
theorem query_id_unique_sequential_stable_witness :
    (∀ i (h : i < (legalbench_rag_qa [[{ query := "q1", snippets := [] },
          { query := "q2", snippets := [{ answer := "ans", file_path := "p" }] }]]).length),
        ((legalbench_rag_qa [[{ query := "q1", snippets := [] },
            { query := "q2", snippets := [{ answer := "ans", file_path := "p" }] }]]).get
          ⟨i, h⟩).query_id = i + 1)
    ∧ (runPipeline (fun _ => []) (fun _ => "out")
          (legalbench_rag_subset (legalbench_rag_qa [[{ query := "q1", snippets := [] },
              { query := "q2", snippets := [{ answer := "ans", file_path := "p" }] }]])
            [1, 0])).map ResultRecord.query_id
        = [1, 0].map (· + 1)
    ∧ (serializable_results (runPipeline (fun _ => []) (fun _ => "out")
          (legalbench_rag_subset (legalbench_rag_qa [[{ query := "q1", snippets := [] },
              { query := "q2", snippets := [{ answer := "ans", file_path := "p" }] }]])
            [1, 0]))).map SerializableResult.query_id
        = (runPipeline (fun _ => []) (fun _ => "out")
            (legalbench_rag_subset (legalbench_rag_qa [[{ query := "q1", snippets := [] },
                { query := "q2", snippets := [{ answer := "ans", file_path := "p" }] }]])
              [1, 0])).map ResultRecord.query_id
    ∧ (ragchecker_results (serializable_results (runPipeline (fun _ => []) (fun _ => "out")
          (legalbench_rag_subset (legalbench_rag_qa [[{ query := "q1", snippets := [] },
              { query := "q2", snippets := [{ answer := "ans", file_path := "p" }] }]])
            [1, 0])))).map RCResult.query_id
        = ((serializable_results (runPipeline (fun _ => []) (fun _ => "out")
              (legalbench_rag_subset (legalbench_rag_qa [[{ query := "q1", snippets := [] },
                  { query := "q2", snippets := [{ answer := "ans", file_path := "p" }] }]])
                [1, 0]))).filter
            (fun r => 0 < r.ground_truth_answer.length)).map (fun r => toString r.query_id)
    ∧ ((runPipeline (fun _ => []) (fun _ => "out")
          (legalbench_rag_subset (legalbench_rag_qa [[{ query := "q1", snippets := [] },
              { query := "q2", snippets := [{ answer := "ans", file_path := "p" }] }]])
            [1, 0])).map ResultRecord.query_id).Nodup :=
  query_id_unique_sequential_stable
    [[{ query := "q1", snippets := [] },
      { query := "q2", snippets := [{ answer := "ans", file_path := "p" }] }]]
    [1, 0] (fun _ => []) (fun _ => "out") (by decide) (by decide)

end LegalBenchRAG
